import Mathlib

/-!
Shallow embedding of the greenmask subset SQL builders (package subset) and of
the transformation configuration builder
(internal/db/postgres/context/config_builder.go and
internal/db/postgres/transformers/default_anonymizers.go), together with
theorems settling specification-level properties about them.

Modelling conventions: Go maps are modelled as association lists, Go byte
strings as lists of byte values (Nat below 256), Go panics and out-of-range
indexing as Option results (none), and Go error returns as Except results.
Database catalog queries and the graph object, which live outside the embedded
sources, are modelled from the specification and marked as such.
-/

namespace Greenmask

/-- strings.Contains s pat: pat occurs as a contiguous substring of s. -/
def listIsInfixOfChars (pat : List Char) : List Char → Bool
  | [] => pat.isEmpty
  | c :: rest => pat.isPrefixOf (c :: rest) || listIsInfixOfChars pat rest

/-- strings.Contains on strings, byte-for-byte on the character sequence. -/
def containsSubstr (s pat : String) : Bool :=
  listIsInfixOfChars pat.data s.data

/-- strings.ToLower, character-wise (ASCII suffices for the type names the
embedded code compares). -/
def stringToLower (s : String) : String :=
  String.mk (s.data.map Char.toLower)

/-- strings.HasSuffix. -/
def stringEndsWith (s suffix : String) : Bool :=
  suffix.data.isSuffixOf s.data

/-- strings.HasPrefix. -/
def stringStartsWith (s pre : String) : Bool :=
  pre.data.isPrefixOf s.data

/-- Reading a key of a Go map[string]ParamsValue: a missing key yields the
zero value, whose string conversion is the empty string. -/
def lookupParam (params : List (String × String)) (k : String) : String :=
  (List.lookup k params).getD ("")

/-- Writing a key of a Go map[string]ParamsValue: replace the binding if the
key is present, otherwise add it. -/
def insertParam (params : List (String × String)) (k v : String) : List (String × String) :=
  if params.any (fun p => p.fst == k) then
    params.map (fun p => if p.fst == k then (k, v) else p)
  else
    params ++ [(k, v)]

/-- toolkit validation severities. -/
inductive ValidationSeverity
  | info
  | warning
  | error
deriving DecidableEq, Repr

/-- True exactly on the error severity. -/
def ValidationSeverity.isError : ValidationSeverity → Bool
  | ValidationSeverity.error => true
  | _ => false

/-- toolkit.ValidationWarning: severity, message and metadata map. -/
structure ValidationWarning where
  severity : ValidationSeverity
  msg : String
  meta : List (String × String)
deriving DecidableEq, Repr

/-- ValidationWarnings.IsFatal: a warning list is fatal when it contains any
error-severity warning. -/
def isFatal (ws : List ValidationWarning) : Bool :=
  ws.any (fun w => w.severity.isError)

/-- toolkit.Column, the fields the embedded code reads. -/
structure Column where
  name : String
  typeName : String
  canonicalTypeName : String
  isGenerated : Bool
deriving DecidableEq, Repr

/-- entries.Table, the fields the embedded code reads.  relKind is the
PostgreSQL relation kind; the rootPt fields are the partition-parent
back-references set during partition expansion. -/
structure Table where
  schema : String
  name : String
  oid : Nat
  relKind : Char
  columns : List Column
  primaryKey : List String
  rootPtSchema : String
  rootPtName : String
  rootPtOid : Nat
deriving DecidableEq, Repr

/-- subset.TableLink: one endpoint of a foreign-key edge, carrying the table
and the ordered key column names of that endpoint. -/
structure TableLink where
  table : Table
  keys : List String
deriving DecidableEq, Repr

/-- subset.Edge: a directed foreign-key edge.  In the forward graph, from_ is
the referencing table with its FK columns as keys and to is the referenced
table with the referenced (primary key) columns as keys. -/
structure Edge where
  id : Nat
  from_ : TableLink
  to_ : TableLink
deriving DecidableEq, Repr

/-- Modelled from the spec: subset.Graph (the FK graph object is outside the
embedded sources).  It is the in-scope table list plus the FK edge list; every
edge endpoint references a table of the table list. -/
structure Graph where
  tables : List Table
  edges : List Edge
deriving DecidableEq, Repr

/-- Modelled from the spec: the reverse adjacency of the FK graph.  For the
table at index i of the table list, it holds one reversed edge per FK edge
whose referenced table is that table; a reversed edge swaps the two endpoints,
so its from_ side is the referenced table and its to side is the referencing
child table with the child FK columns as keys. -/
def Graph.reversedGraph (g : Graph) : List (List Edge) :=
  g.tables.map (fun t =>
    (g.edges.filter (fun e => e.to_.table.oid == t.oid)).map
      (fun e => { id := e.id, from_ := e.to_, to_ := e.from_ }))

/-- Accessor matching Graph.GetTables of the source. -/
def Graph.GetTables (g : Graph) : List Table := g.tables

/-- Accessor matching Graph.Tables of the source. -/
def Graph.Tables (g : Graph) : List Table := g.tables

/-! ## part: subset query helpers (query generation helpers file) -/

/-- generateWhereClause: parenthesize each subset condition and join with
AND; an empty condition list yields WHERE TRUE. -/
def generateWhereClause (subsetConds : List String) : String :=
  if subsetConds.isEmpty then "WHERE TRUE"
  else
    let escapedConds := subsetConds.map (fun cond => "( " ++ cond ++ " )")
    "WHERE " ++ String.intercalate (" AND ") escapedConds

/-- generateSelectAllColumns: explicit select list over the non-generated
columns of the table, fully qualified. -/
def generateSelectAllColumns (table : Table) : String :=
  let cols := (table.columns.filter (fun c => !c.isGenerated)).map
    (fun c => "\"" ++ table.schema ++ "\".\"" ++ table.name ++ "\".\"" ++ c.name ++ "\"")
  "SELECT " ++ String.intercalate (", ") cols

/-! ## SHA-1 (crypto/sha1), used by shorten.  Pure big-endian implementation
over byte lists; 32-bit words are Nats reduced modulo 2^32. -/

/-- Left-rotate a 32-bit word by n bits. -/
def rotl32 (n x : Nat) : Nat :=
  ((x <<< n) ||| (x >>> (32 - n))) % 4294967296

/-- SHA-1 round constant for round t. -/
def sha1K (t : Nat) : Nat :=
  if t < 20 then 0x5A827999
  else if t < 40 then 0x6ED9EBA1
  else if t < 60 then 0x8F1BBCDC
  else 0xCA62C1D6

/-- SHA-1 round function for round t. -/
def sha1F (t b c d : Nat) : Nat :=
  if t < 20 then (b &&& c) ||| ((b ^^^ 0xFFFFFFFF) &&& d)
  else if t < 40 then b ^^^ c ^^^ d
  else if t < 60 then (b &&& c) ||| (b &&& d) ||| (c &&& d)
  else b ^^^ c ^^^ d

/-- Split a list into chunks of n elements; the fuel argument bounds the
number of chunks and is instantiated with the list length. -/
def listChunksAux (n : Nat) : Nat → List Nat → List (List Nat)
  | 0, _ => []
  | _, [] => []
  | Nat.succ fuel, l => l.take n :: listChunksAux n fuel (l.drop n)

/-- Split a list into chunks of n elements (n is 64 or 4 below). -/
def listChunks (n : Nat) (l : List Nat) : List (List Nat) :=
  listChunksAux n l.length l

/-- Big-endian bytes of a 32-bit word. -/
def wordToBytes (w : Nat) : List Nat :=
  [w / 16777216 % 256, w / 65536 % 256, w / 256 % 256, w % 256]

/-- Big-endian word from a list of bytes. -/
def bytesToWord (bs : List Nat) : Nat :=
  bs.foldl (fun acc b => acc * 256 + b) 0

/-- SHA-1 padding: append 0x80, zero bytes to 56 mod 64, then the bit length
as a 64-bit big-endian integer. -/
def sha1PadMessage (msg : List Nat) : List Nat :=
  let lenBits := msg.length * 8
  let zeros := (119 - msg.length % 64) % 64
  msg ++ [128] ++ List.replicate zeros 0 ++
    [lenBits / 72057594037927936 % 256, lenBits / 281474976710656 % 256,
     lenBits / 1099511627776 % 256, lenBits / 4294967296 % 256,
     lenBits / 16777216 % 256, lenBits / 65536 % 256, lenBits / 256 % 256, lenBits % 256]

/-- Extend the 16 schedule words of a block to 80. -/
def sha1ExtendSchedule (ws : List Nat) : List Nat :=
  (List.range 64).foldl (fun acc _ =>
    let k := acc.length
    acc ++ [rotl32 1 ((acc.getD (k - 3) 0) ^^^ (acc.getD (k - 8) 0) ^^^
      (acc.getD (k - 14) 0) ^^^ (acc.getD (k - 16) 0))]) ws

/-- Compress one 64-byte block into the running state. -/
def sha1ProcessBlock (h : Nat × Nat × Nat × Nat × Nat) (block : List Nat) :
    Nat × Nat × Nat × Nat × Nat :=
  let w := sha1ExtendSchedule ((listChunks 4 block).map bytesToWord)
  let (h0, h1, h2, h3, h4) := h
  let st := (List.range 80).foldl (fun st t =>
    let (a, b, c, d, e) := st
    let temp := (rotl32 5 a + sha1F t b c d + e + sha1K t + w.getD t 0) % 4294967296
    (temp, a, rotl32 30 b, c, d)) (h0, h1, h2, h3, h4)
  let (a, b, c, d, e) := st
  ((h0 + a) % 4294967296, (h1 + b) % 4294967296, (h2 + c) % 4294967296,
   (h3 + d) % 4294967296, (h4 + e) % 4294967296)

/-- Serialize the final state to the 20-byte digest. -/
def sha1DigestOfState : Nat × Nat × Nat × Nat × Nat → List Nat
  | (h0, h1, h2, h3, h4) =>
    wordToBytes h0 ++ wordToBytes h1 ++ wordToBytes h2 ++ wordToBytes h3 ++ wordToBytes h4

/-- sha1.Sum: the SHA-1 digest (20 bytes) of a byte message. -/
def sha1 (msg : List Nat) : List Nat :=
  sha1DigestOfState ((listChunks 64 (sha1PadMessage msg)).foldl sha1ProcessBlock
    (0x67452301, 0xEFCDAB89, 0x98BADCFE, 0x10325476, 0xC3D2E1F0))

/-- One lowercase hex digit as an ASCII byte. -/
def hexDigitByte (n : Nat) : Nat :=
  if n < 10 then 48 + n else 87 + n

/-- Lowercase hex encoding (two ASCII bytes) of one byte, as produced by a
percent-x format verb. -/
def hexByte (b : Nat) : List Nat :=
  [hexDigitByte (b / 16), hexDigitByte (b % 16)]

/-- Hex-encode a byte list (percent-x over a byte slice). -/
def hexEncode (bs : List Nat) : List Nat :=
  bs.foldr (fun b acc => hexByte b ++ acc) []

/-- shorten: Go strings are byte sequences, so names are modelled as byte
lists; len and slicing in the source are byte-wise.  A name of at most 63
bytes is returned unchanged; a longer one becomes its 40-byte prefix, an
underscore (byte 95), and the 10 lowercase hex characters of the first 5
bytes of its SHA-1 digest. -/
def shorten (name : List Nat) : List Nat :=
  let maxLen := 63
  if name.length ≤ maxLen then name
  else
    let h := sha1 name
    let prefixLen0 := 40
    let prefixLen := if prefixLen0 > maxLen - 11 then maxLen - 11 else prefixLen0
    name.take prefixLen ++ [95] ++ hexEncode (h.take 5)

/-! ## buildWithClause: deterministic WITH clause with Kahn ordering -/

/-- The body of a named CTE in the definition map (Go map read; names passed
below always come from the map, so the default is never observed). -/
def cteBodyOf (cteDefs : List (String × String)) (n : String) : String :=
  (List.lookup n cteDefs).getD ("")

/-- CTE dependency: n depends on m when they differ and the body of n
literally contains m surrounded by double quotes. -/
def cteDep (cteDefs : List (String × String)) (n m : String) : Bool :=
  (!(n == m)) && containsSubstr (cteBodyOf cteDefs n) ("\"" ++ m ++ "\"")

/-- The sorted name list of the definition map (sort.Strings over the keys). -/
def cteNames (cteDefs : List (String × String)) : List String :=
  (cteDefs.map Prod.fst).mergeSort (fun a b => a ≤ b)

/-- The nodes of in-degree zero among the remaining ones: those that depend
on no remaining node.  The remaining list stays sorted, so this models the
sorted zero queue of the source, whose head is the least candidate. -/
def kahnZeros (dep : String → String → Bool) (remaining : List String) : List String :=
  remaining.filter (fun n => remaining.all (fun m => !(dep n m)))

/-- Kahn topological sort loop: repeatedly emit the least remaining node with
no remaining dependency.  The in-degree bookkeeping of the source maintains,
for each unemitted node, the number of its unemitted dependencies, and its
zero list is kept sorted, so popping the zero list head is exactly picking
the least remaining node of current in-degree zero. -/
def kahnAux (dep : String → String → Bool) (remaining : List String) : List String :=
  match hz : kahnZeros dep remaining with
  | [] => []
  | n :: _ =>
    have hn : n ∈ remaining := by
      have h1 : n ∈ kahnZeros dep remaining := by
        rw [hz]; exact List.mem_cons_self n _
      exact (List.mem_filter.mp h1).1
    n :: kahnAux dep (remaining.erase n)
termination_by remaining.length
decreasing_by
  have h2 := List.length_erase_of_mem hn
  have h3 := List.length_pos_of_mem hn
  omega

/-- The CTE order produced by buildWithClause: the Kahn order when it covers
every name, otherwise the alphabetical fallback. -/
def cteOrder (cteDefs : List (String × String)) : List String :=
  let names := cteNames cteDefs
  let ordered := kahnAux (cteDep cteDefs) names
  if ordered.length ≠ names.length then names else ordered

/-- buildWithClause: assemble the WITH clause listing each CTE as
"name" AS (body) in dependency order. -/
def buildWithClause (cteDefs : List (String × String)) : String :=
  if cteDefs.isEmpty then ""
  else
    let parts := (cteOrder cteDefs).map
      (fun name => "\"" ++ name ++ "\" AS (" ++ cteBodyOf cteDefs name ++ ")")
    "WITH " ++ String.intercalate (", ") parts

/-! ## part: cteQuery (recursive CTE assembly for one cyclic component) -/

/-- cteItem: a named CTE body registered for a component. -/
structure CteItem where
  name : String
  query : String
deriving DecidableEq, Repr

/-- subset.Component, the fields read by generateQuery: the list of cycles
(edge lists) and the grouped-cycles map, of which only the size is read. -/
structure Component where
  cycles : List (List Edge)
  groupedCycles : List (String × List Nat)
deriving DecidableEq, Repr

/-- cteQuery: the item list plus the set of already registered names. -/
structure CteQuery where
  items : List CteItem
  c : Component
  names : List String
deriving DecidableEq, Repr

/-- newCteQuery. -/
def newCteQuery (c : Component) : CteQuery :=
  { items := [], c := c, names := [] }

/-- cteQuery.addItem: skip names already present to avoid duplicates in the
WITH list. -/
def CteQuery.addItem (cq : CteQuery) (name query : String) : CteQuery :=
  if cq.names.contains name then cq
  else { cq with items := cq.items ++ [{ name := name, query := query }],
                 names := cq.names ++ [name] }

/-- cteQuery.generateQuery: the single WITH RECURSIVE query of the component
for one target table.  The source panics when the component has more than one
grouped cycle, and indexes cycles[0]; both panics are modelled as none.  The
__ids CTEs of the non-target tables of the first cycle are filtered out of
the WITH list. -/
def CteQuery.generateQuery (cq : CteQuery) (targetTable : Table) : Option String :=
  if cq.c.groupedCycles.length > 1 then none
  else
    match cq.c.cycles with
    | [] => none
    | cycle0 :: _ =>
      let excludedCteQueries := (cycle0.filter
          (fun edge => !(edge.from_.table.oid == targetTable.oid))).map
        (fun edge => edge.from_.table.schema ++ "__" ++ edge.from_.table.name ++ "__ids")
      let queries := (cq.items.filter
          (fun item => !(excludedCteQueries.contains item.name))).map
        (fun item => " " ++ item.name ++ " AS (" ++ item.query ++ ")")
      let rightTableName := targetTable.schema ++ "__" ++ targetTable.name ++ "__ids"
      let leftTableKeys := targetTable.primaryKey.map
        (fun key => "\"" ++ targetTable.schema ++ "\".\"" ++ targetTable.name ++ "\".\"" ++ key ++ "\"")
      let rightTableKeys := targetTable.primaryKey.map
        (fun key => "\"" ++ rightTableName ++ "\".\"" ++ key ++ "\"")
      let leftKeysCSV := String.intercalate (",") leftTableKeys
      let rightKeysCSV := String.intercalate (",") rightTableKeys
      let selectClause := generateSelectAllColumns targetTable
      let resultingQuery := selectClause ++ " FROM \"" ++ targetTable.schema ++ "\".\"" ++
        targetTable.name ++ "\" WHERE (" ++ leftKeysCSV ++ ") IN (SELECT " ++
        rightKeysCSV ++ " FROM \"" ++ rightTableName ++ "\")"
      some ("WITH RECURSIVE " ++ String.intercalate (",") queries ++ " " ++ resultingQuery)

/-! ## config_builder.go: data model -/

/-- The column parameter name constant. -/
def columnParameterName : String := "column"

/-- The engine parameter name constant. -/
def engineParameterName : String := "engine"

/-- Modelled from the spec: transformers.HashEngineParameterName, the literal
value the engine parameter must take for hash-engine transformers (the
constant lives outside the embedded sources). -/
def hashEngineParameterName : String := "hash"

/-- domains.TransformerConfig: one transformer binding of the user config.
Params are an uninterpreted name-to-bytes map, modelled as a string association
list. -/
structure TransformerConfig where
  name : String
  params : List (String × String)
  whenCond : String
  applyForReferences : Bool
deriving DecidableEq, Repr

/-- domains.Table: the per-table user configuration. -/
structure DomainsTable where
  schema : String
  name : String
  query : String
  applyForInherited : Bool
  transformers : List TransformerConfig
  columnsTypeOverride : List (String × String)
  skipAutoAnonymize : List String
  subsetConds : List String
  whenCond : String
deriving DecidableEq, Repr

/-- tableConfigMapping: an introspected table paired with its user config. -/
structure TableConfigMapping where
  entry : Table
  config : DomainsTable
deriving DecidableEq, Repr

/-- transformersMapping: a root transformer marked for reference
propagation, with the transformed column and its ordinal in the primary
key. -/
structure TransformersMapping where
  entry : Table
  columnName : String
  attNum : Nat
  cfg : TransformerConfig
deriving DecidableEq, Repr

/-- One parameter of a transformer definition (name plus the column-related
capability flags read by the embedded code). -/
structure ParameterDefinition where
  name : String
  isColumn : Bool
  isColumnContainer : Bool
deriving DecidableEq, Repr

/-- A registry entry: the transformer definition.  The two Option Bool fields
model Properties.GetMeta for AllowApplyForReferenced and
RequireHashEngineParameter, none standing for an absent meta key.  The init
fields are modelled from the spec: the initialization callback of the
registry contract returns warnings or an error. -/
structure TransformerDefinition where
  name : String
  allowApplyForReferenced : Option Bool
  requireHashEngineParameter : Option Bool
  parameters : List ParameterDefinition
  initFails : Bool
  initWarnings : List ValidationWarning
deriving DecidableEq, Repr

/-- TransformerRegistry.Get: lookup by transformer name. -/
def registryGet (r : List TransformerDefinition) (n : String) : Option TransformerDefinition :=
  r.find? (fun td => td.name == n)

/-! ## config_builder.go: reference-propagation helpers -/

/-- tableConfigMapping.hasTransformerWithApplyForReferences. -/
def hasTransformerWithApplyForReferences (tcm : TableConfigMapping) : Bool :=
  tcm.config.transformers.any (fun tr => tr.applyForReferences)

/-- findTablesWithTransformers: pair every introspected table with the first
config entry matching it by exact or quoted name and schema. -/
def findTablesWithTransformers (cfg : List DomainsTable) (tables : List Table) :
    List TableConfigMapping :=
  tables.foldl (fun acc entry =>
    match cfg.find? (fun table =>
        (table.name == entry.name || ("\"" ++ table.name ++ "\"") == entry.name) &&
        (table.schema == entry.schema || ("\"" ++ table.schema ++ "\"") == entry.schema)) with
    | some c => acc ++ [{ entry := entry, config := c }]
    | none => acc) []

/-- isTransformerAllowedToApplyForReferences: registry capability and engine
parameter checks for a binding marked apply_for_references. -/
def isTransformerAllowedToApplyForReferences (cfg : TransformerConfig)
    (r : List TransformerDefinition) : Bool × List ValidationWarning :=
  match registryGet r cfg.name with
  | none =>
    (false, [{ severity := ValidationSeverity.error, msg := "transformer not found",
               meta := [("TransformerName", cfg.name)] }])
  | some td =>
    let allowWarning : ValidationWarning :=
      { severity := ValidationSeverity.error,
        msg := "cannot apply transformer for references: transformer does not support apply for references",
        meta := [("TransformerName", cfg.name)] }
    match td.allowApplyForReferenced with
    | none => (false, [allowWarning])
    | some allow =>
      if !allow then (false, [allowWarning])
      else
        match td.requireHashEngineParameter with
        | none => (false, [])
        | some req =>
          if !req then (true, [])
          else if !(lookupParam cfg.params engineParameterName == hashEngineParameterName) then
            (false, [{ severity := ValidationSeverity.error,
                       msg := "cannot apply transformer for references: engine parameter is not hash",
                       meta := [("TransformerName", cfg.name)] }])
          else (true, [])

/-- checkApplyForReferenceMetRequirements: run the allowance check over every
apply_for_references transformer of the table, collecting the warnings of the
disallowed ones; ok iff the collected warnings are not fatal. -/
def checkApplyForReferenceMetRequirements (tcm : TableConfigMapping)
    (r : List TransformerDefinition) : Bool × List ValidationWarning :=
  let warnings := tcm.config.transformers.foldl (fun acc tr =>
    if !tr.applyForReferences then acc
    else
      let chk := isTransformerAllowedToApplyForReferences tr r
      if !chk.fst then acc ++ chk.snd else acc) []
  (!(isFatal warnings), warnings)

/-- collectRootTransformers: keep only bindings marked apply_for_references
whose engine parameter is literally hash and whose column parameter is a
primary-key column of the root table, recording the ordinal of that column. -/
def collectRootTransformers (rootTable : Table) (rootTableCfg : DomainsTable) :
    List TransformersMapping :=
  rootTableCfg.transformers.foldl (fun acc tr =>
    if !tr.applyForReferences || !(lookupParam tr.params engineParameterName == "hash") then acc
    else
      match rootTable.primaryKey.findIdx?
          (fun k => k == lookupParam tr.params columnParameterName) with
      | none => acc
      | some idx =>
        acc ++ [{ entry := rootTable, columnName := lookupParam tr.params columnParameterName,
                  attNum := idx, cfg := tr }]) []

/-- findTableIndex: index of a table in the graph table list, matching exact
or quoted name and schema. -/
def findTableIndex (graph : Graph) (table : Table) : Option Nat :=
  graph.GetTables.findIdx? (fun t =>
    (table.name == t.name || ("\"" ++ table.name ++ "\"") == t.name) &&
    (table.schema == t.schema || ("\"" ++ table.schema ++ "\"") == t.schema))

/-- isEndToEndPKFK: whether some table referencing the given table has an FK
column that is also one of its own primary-key columns.  The source indexes
the reversed adjacency with an unchecked IndexFunc result, so a table absent
from the graph is a panic, modelled as none. -/
def isEndToEndPKFK (graph : Graph) (table : Table) : Option Bool :=
  match graph.Tables.findIdx? (fun t => t.name == table.name && t.schema == table.schema) with
  | none => none
  | some idx =>
    let rg := graph.reversedGraph
    some ((rg.getD idx []).any (fun ref =>
      ref.to_.keys.any (fun fkColName =>
        ref.to_.table.primaryKey.any (fun pkColName => pkColName == fkColName))))

/-- A character that can start an identifier in the when-condition column
regular expression. -/
def isIdentStartChar (c : Char) : Bool := c.isAlpha || c == '_'

/-- A character that can continue an identifier in the when-condition column
regular expression. -/
def isIdentTailChar (c : Char) : Bool := c.isAlphanum || c == '_'

/-- Try to match the when-condition column pattern at the current position:
the namespace record or raw_record, a dot, then an identifier.  Returns the
captured identifier and the rest of the input after the match. -/
def whenColumnAt (cs : List Char) : Option (String × List Char) :=
  let tryNs : List Char → Option (String × List Char) := fun ns =>
    if ns.isPrefixOf cs then
      match cs.drop ns.length with
      | [] => none
      | c :: tl =>
        if isIdentStartChar c then
          let ident := c :: tl.takeWhile isIdentTailChar
          some (String.mk ident, (c :: tl).drop ident.length)
        else none
    else none
  match tryNs ("record.").data with
  | some r => some r
  | none => tryNs ("raw_record.").data

/-- Left-to-right non-overlapping scan for the when-condition column pattern,
as regexp FindAllStringSubmatch performs it; the fuel argument is the input
length, enough since every step consumes at least one character. -/
def scanWhenColumnsAux : Nat → List Char → List String
  | 0, _ => []
  | _, [] => []
  | Nat.succ fuel, c :: rest =>
    match whenColumnAt (c :: rest) with
    | some (col, rem) => col :: scanWhenColumnsAux fuel rem
    | none => scanWhenColumnsAux fuel rest

/-- All column names referenced as record.col or raw_record.col in a
when-condition source string. -/
def scanWhenColumns (s : String) : List String :=
  scanWhenColumnsAux s.data.length s.data

/-- validateDoesInheritedConditionHaveAllColumns: every column referenced by
the inherited when condition must exist on the child table; each missing one
yields an error-severity warning. -/
def validateDoesInheritedConditionHaveAllColumns (t : Table) (cfg : TransformerConfig) :
    List ValidationWarning :=
  if cfg.whenCond == "" then []
  else
    let ms := scanWhenColumns cfg.whenCond
    if ms.isEmpty then []
    else
      ms.foldl (fun acc colName =>
        if t.columns.any (fun c => c.name == colName) then acc
        else
          acc ++ [{ severity := ValidationSeverity.error,
                    msg := "cannot inherit condition: column " ++ colName ++
                      " not found in table " ++ t.schema ++ "." ++ t.name,
                    meta := [("SchemaName", t.schema), ("TableName", t.name),
                             ("ColumnName", colName)] }]) []

/-- checkTransformerAlreadyExists: first manually configured transformer of
the named table with the same transformer name and column parameter. -/
def checkTransformerAlreadyExists (conf : List DomainsTable)
    (schemaName tableName tranName tColumn : String) : Option TransformerConfig :=
  ((conf.filter (fun c => c.name == tableName && c.schema == schemaName)).foldl
    (fun acc c => acc ++ c.transformers) []).find?
    (fun tr => tr.name == tranName && lookupParam tr.params columnParameterName == tColumn)

/-- getColumnTypeOverride: the column type override of the root config for
the transformed column, when present and non-empty. -/
def getColumnTypeOverride (rootTableCfg : DomainsTable) (columnName : String) :
    List (String × String) :=
  match List.lookup columnName rootTableCfg.columnsTypeOverride with
  | some v => if v == "" then [] else [(columnName, v)]
  | none => []

/-- addTransformerToReferenceTable: append the cloned transformer to the
existing mapping of the child table, or add a fresh mapping whose config
carries only schema, name, the transformer and the column type override. -/
def addTransformerToReferenceTable (r : Edge) (trConf : TransformerConfig)
    (colTypeOverride : List (String × String)) (res : List TableConfigMapping) :
    List TableConfigMapping :=
  match res.findIdx? (fun tcm =>
      tcm.entry.name == r.to_.table.name && tcm.entry.schema == r.to_.table.schema) with
  | some refTableIdx =>
    match res[refTableIdx]? with
    | some tcm =>
      res.set refTableIdx
        { tcm with config := { tcm.config with
            transformers := tcm.config.transformers ++ [trConf] } }
    | none => res
  | none =>
    res ++ [{ entry := r.to_.table,
              config := { schema := r.to_.table.schema, name := r.to_.table.name,
                          query := "", applyForInherited := false,
                          transformers := [trConf], columnsTypeOverride := colTypeOverride,
                          skipAutoAnonymize := [], subsetConds := [], whenCond := "" } }]

/-- The namespace prefix of record references in when conditions. -/
def transformationConditionNamespaceRecord : String := "record"

/-- The namespace prefix of raw record references in when conditions. -/
def transformationConditionNamespaceRawRecord : String := "raw_record"

/-- processReference: for every collected root transformer, clone it for the
child side of the edge with the column parameter rewritten to the child FK
column at the same ordinal, rewriting when-condition column references and
inheriting the column type override; children already covered by a manual
transformer are skipped.  Indexing the child keys with the primary-key
ordinal is unchecked in the source, so an out-of-range ordinal is a panic,
modelled as none. -/
def processReference (r : Edge) (rootTableCfg : DomainsTable)
    (rootTrans : List TransformersMapping) (allTrans : List DomainsTable)
    (res : List TableConfigMapping) :
    Option (List TableConfigMapping × List ValidationWarning) :=
  match rootTrans with
  | [] => some (res, [])
  | rootTr :: restTrans =>
    match (r.to_.keys)[rootTr.attNum]? with
    | none => none
    | some refColName =>
      match checkTransformerAlreadyExists allTrans r.to_.table.schema r.to_.table.name
          rootTr.cfg.name refColName with
      | some _ => processReference r rootTableCfg restTrans allTrans res
      | none =>
        let trConf0 : TransformerConfig :=
          { rootTr.cfg with params := insertParam rootTr.cfg.params columnParameterName refColName }
        let trConf :=
          if rootTr.cfg.whenCond ≠ "" then
            let w1 := (rootTr.cfg.whenCond).replace
              (transformationConditionNamespaceRecord ++ "." ++ rootTr.columnName)
              (transformationConditionNamespaceRecord ++ "." ++ refColName)
            let w2 := w1.replace
              (transformationConditionNamespaceRawRecord ++ "." ++ rootTr.columnName)
              (transformationConditionNamespaceRawRecord ++ "." ++ refColName)
            { trConf0 with whenCond := w2 }
          else trConf0
        let ws := validateDoesInheritedConditionHaveAllColumns r.to_.table trConf
        let res1 := addTransformerToReferenceTable r trConf
          (getColumnTypeOverride rootTableCfg rootTr.columnName) res
        match processReference r rootTableCfg restTrans allTrans res1 with
        | none => none
        | some (res2, ws2) => some (res2, ws ++ ws2)

/-- The warning emitted when the DFS cannot locate a table in the graph. -/
def dfsMissingTableWarning (table : Table) : ValidationWarning :=
  { severity := ValidationSeverity.warning,
    msg := "transformer inheritance for ref: cannot find table in the graph: table will be ignored",
    meta := [("SchemaName", table.schema), ("TableName", table.name)] }

mutual

/-- buildRefsWithEndToEndDfs: depth-first walk of the reversed graph from a
table, applying processReference to each incoming edge and recursing into the
child with the end-to-end check switched on.  The source recursion has no
cycle guard, so termination is modelled with a fuel argument consumed at
every step; exhausted fuel is none, and the claims instantiate fuel above the
total number of steps of their acyclic fixtures. -/
def buildRefsWithEndToEndDfs (graph : Graph) (rootTableCfg : DomainsTable)
    (rootTrans : List TransformersMapping) (allTrans : List DomainsTable)
    (fuel : Nat) (table : Table) (checkEndToEnd : Bool) (res : List TableConfigMapping) :
    Option (List TableConfigMapping × List ValidationWarning) :=
  match fuel with
  | 0 => none
  | Nat.succ fuel1 =>
    match findTableIndex graph table with
    | none => some (res, [dfsMissingTableWarning table])
    | some tableIdx =>
      dfsProcessEdges graph rootTableCfg rootTrans allTrans fuel1
        ((graph.reversedGraph).getD tableIdx []) checkEndToEnd res

/-- The loop over the reversed edges of the current table: an edge is skipped
when the end-to-end check is on and isEndToEndPKFK fails for the from_ table
of the edge (the current, referenced table). -/
def dfsProcessEdges (graph : Graph) (rootTableCfg : DomainsTable)
    (rootTrans : List TransformersMapping) (allTrans : List DomainsTable)
    (fuel : Nat) (edges : List Edge) (checkEndToEnd : Bool) (res : List TableConfigMapping) :
    Option (List TableConfigMapping × List ValidationWarning) :=
  match fuel with
  | 0 => none
  | Nat.succ fuel1 =>
    match edges with
    | [] => some (res, [])
    | r :: rest =>
      if checkEndToEnd then
        match isEndToEndPKFK graph r.from_.table with
        | none => none
        | some b =>
          if !b then dfsProcessEdges graph rootTableCfg rootTrans allTrans fuel1 rest checkEndToEnd res
          else dfsVisitEdge graph rootTableCfg rootTrans allTrans fuel1 r rest checkEndToEnd res
      else dfsVisitEdge graph rootTableCfg rootTrans allTrans fuel1 r rest checkEndToEnd res

/-- Process one edge then recurse into its child table and continue with the
remaining edges, accumulating warnings in source order. -/
def dfsVisitEdge (graph : Graph) (rootTableCfg : DomainsTable)
    (rootTrans : List TransformersMapping) (allTrans : List DomainsTable)
    (fuel : Nat) (r : Edge) (rest : List Edge) (checkEndToEnd : Bool)
    (res : List TableConfigMapping) :
    Option (List TableConfigMapping × List ValidationWarning) :=
  match fuel with
  | 0 => none
  | Nat.succ fuel1 =>
    match processReference r rootTableCfg rootTrans allTrans res with
    | none => none
    | some (res1, w1) =>
      match buildRefsWithEndToEndDfs graph rootTableCfg rootTrans allTrans fuel1
          r.to_.table true res1 with
      | none => none
      | some (res2, w2) =>
        match dfsProcessEdges graph rootTableCfg rootTrans allTrans fuel1 rest checkEndToEnd res2 with
        | none => none
        | some (res3, w3) => some (res3, w1 ++ w2 ++ w3)

end

/-- getRefTables: collect the root transformers of the configured table and
run the DFS from it with the end-to-end check off at the first level. -/
def getRefTables (rootTable : Table) (rootTableCfg : DomainsTable) (graph : Graph)
    (allTrans : List DomainsTable) (fuel : Nat) :
    Option (List TableConfigMapping × List ValidationWarning) :=
  buildRefsWithEndToEndDfs graph rootTableCfg
    (collectRootTransformers rootTable rootTableCfg) allTrans fuel rootTable false []

/-! ## config_builder.go: partition expansion and entry assembly -/

/-- Modelled from the spec: findPartitionsOfPartitionedTable issues the
catalog query for the child partition OIDs of a parent OID.  The catalog is
modelled as an association list from parent OID to the child OID list. -/
def findPartitionsOfPartitionedTable (catalog : List (Nat × List Nat)) (t : Table) :
    List Nat :=
  (List.lookup t.oid catalog).getD []

/-- The loop body of setupConfigForPartitionedTableChildren for one partition
OID: skip OIDs whose table is out of scope, otherwise record the parent
identity and the parent columns on the child entry and bind the parent config
to it. -/
def setupChildStep (parentTcm : TableConfigMapping) (tables : List Table)
    (res : List TableConfigMapping) (pt : Nat) : List TableConfigMapping :=
  match tables.find? (fun table => table.oid == pt) with
  | none => res
  | some e =>
    let e1 := { e with rootPtName := parentTcm.entry.name,
                       rootPtSchema := parentTcm.entry.schema,
                       rootPtOid := parentTcm.entry.oid,
                       columns := parentTcm.entry.columns }
    res ++ [{ entry := e1, config := parentTcm.config }]

/-- setupConfigForPartitionedTableChildren: for every partition OID found in
the in-scope table list, record the parent identity and the parent columns on
the child entry and bind the parent config to it. -/
def setupConfigForPartitionedTableChildren (parentTcm : TableConfigMapping)
    (tables : List Table) (catalog : List (Nat × List Nat)) :
    List TableConfigMapping :=
  let parts := findPartitionsOfPartitionedTable catalog parentTcm.entry
  parts.foldl (setupChildStep parentTcm tables) []

/-- The error warning emitted for a partitioned parent configured without
apply_for_inherited. -/
def partitionedParentWarning (tcm : TableConfigMapping) : ValidationWarning :=
  { severity := ValidationSeverity.error,
    msg := "the table is partitioned use apply_for_inherited",
    meta := [("SchemaName", tcm.entry.schema), ("TableName", tcm.entry.name)] }

/-- The loop body of setConfigToEntries over the matched table-config
mappings, threading the result list and the warnings. -/
def setConfigToEntriesLoop (cfg : List DomainsTable) (tables : List Table) (g : Graph)
    (r : List TransformerDefinition) (catalog : List (Nat × List Nat)) (fuel : Nat) :
    List TableConfigMapping → List TableConfigMapping → List ValidationWarning →
    Option (List TableConfigMapping × List ValidationWarning)
  | [], res, warnings => some (res, warnings)
  | tcm :: rest, res, warnings =>
    let refStep : Option (List TableConfigMapping × List ValidationWarning × Bool) :=
      if hasTransformerWithApplyForReferences tcm then
        let chk := checkApplyForReferenceMetRequirements tcm r
        if !chk.fst then some (res, warnings ++ chk.snd, true)
        else
          match getRefTables tcm.entry tcm.config g cfg fuel with
          | none => none
          | some (refTables, warns) => some (res ++ refTables, warnings ++ warns, false)
      else some (res, warnings, false)
    match refStep with
    | none => none
    | some (res1, warnings1, skip) =>
      if skip then setConfigToEntriesLoop cfg tables g r catalog fuel rest res1 warnings1
      else if !(tcm.entry.relKind == 'p') then
        setConfigToEntriesLoop cfg tables g r catalog fuel rest (res1 ++ [tcm]) warnings1
      else if !tcm.config.applyForInherited then
        setConfigToEntriesLoop cfg tables g r catalog fuel rest res1
          (warnings1 ++ [partitionedParentWarning tcm])
      else
        setConfigToEntriesLoop cfg tables g r catalog fuel rest
          (res1 ++ setupConfigForPartitionedTableChildren tcm tables catalog) warnings1

/-- setConfigToEntries: match configs to tables, expand apply_for_references
bindings through the graph, expand partitioned parents to their children, and
collect the warnings.  The Option wraps the modelled panics of the reference
walk and the fuel bound of its recursion. -/
def setConfigToEntries (cfg : List DomainsTable) (tables : List Table) (g : Graph)
    (r : List TransformerDefinition) (catalog : List (Nat × List Nat)) (fuel : Nat) :
    Option (List TableConfigMapping × List ValidationWarning) :=
  setConfigToEntriesLoop cfg tables g r catalog fuel (findTablesWithTransformers cfg tables) [] []

/-! ## default_anonymizers.go and the auto-anonymize path -/

/-- getDefaultTransformerForScalarType: the per-type default transformer
table; unsupported types are an error. -/
def getDefaultTransformerForScalarType (column : Column) (typeName : String) :
    Except String TransformerConfig :=
  match stringToLower typeName with
  | "text" | "varchar" | "character varying" | "char" | "character" | "bpchar" =>
    Except.ok
      { name := "RandomString",
        params := [("column", column.name), ("min_length", "5"), ("max_length", "20")],
        whenCond := "", applyForReferences := false }
  | "integer" | "int" | "int4" | "bigint" | "int8" | "smallint" | "int2" =>
    Except.ok
      { name := "RandomInt",
        params := [("column", column.name), ("min", "1"), ("max", "2147483647")],
        whenCond := "", applyForReferences := false }
  | "numeric" | "decimal" =>
    Except.ok
      { name := "RandomNumeric",
        params := [("column", column.name), ("min", "1"), ("max", "999999"),
                 ("precision", "10"), ("scale", "2")],
        whenCond := "", applyForReferences := false }
  | "real" | "float4" | "double precision" | "float8" =>
    Except.ok
      { name := "RandomFloat",
        params := [("column", column.name), ("min", "1.0"), ("max", "1000000.0")],
        whenCond := "", applyForReferences := false }
  | "date" =>
    Except.ok
      { name := "RandomDate",
        params := [("column", column.name), ("min", "1970-01-01"), ("max", "2024-12-31")],
        whenCond := "", applyForReferences := false }
  | "timestamp" | "timestamp without time zone" =>
    Except.ok
      { name := "RandomDate",
        params := [("column", column.name), ("min", "1970-01-01 00:00:00"),
                 ("max", "2024-12-31 23:59:59")],
        whenCond := "", applyForReferences := false }
  | "timestamptz" | "timestamp with time zone" =>
    Except.ok
      { name := "RandomDate",
        params := [("column", column.name), ("min", "1970-01-01 00:00:00+00"),
                 ("max", "2024-12-31 23:59:59+00")],
        whenCond := "", applyForReferences := false }
  | "boolean" | "bool" =>
    Except.ok
      { name := "RandomBool", params := [("column", column.name)],
        whenCond := "", applyForReferences := false }
  | "uuid" =>
    Except.ok
      { name := "RandomUuid", params := [("column", column.name)],
        whenCond := "", applyForReferences := false }
  | "json" | "jsonb" =>
    Except.ok
      { name := "Replace", params := [("column", column.name), ("value", "\x7b\x7d")],
        whenCond := "", applyForReferences := false }
  | _ =>
    Except.error ("unable to get default transformer for column " ++ column.name ++
      " and type " ++ typeName)

/-- getDefaultTransformerForArrayType: arrays are replaced by an empty array
literal, keeping nulls. -/
def getDefaultTransformerForArrayType (column : Column) (_typeName : String) :
    Except String TransformerConfig :=
  Except.ok
    { name := "Replace",
      params := [("column", column.name), ("value", "\x7b\x7d"), ("keep_null", "true")],
        whenCond := "", applyForReferences := false }

/-- GetDefaultTransformerForColumn: canonical type name takes precedence over
the type name; array types (suffix [] or prefix underscore) use the array
default, scalar types the scalar table. -/
def GetDefaultTransformerForColumn (column : Column) : Except String TransformerConfig :=
  let typeName := column.typeName
  let typeName2 := if !(column.canonicalTypeName == "") then column.canonicalTypeName else typeName
  if stringEndsWith typeName2 ("[]") || stringStartsWith typeName2 ("_") then
    getDefaultTransformerForArrayType column typeName2
  else
    getDefaultTransformerForScalarType column typeName2

/-- Modelled from the spec: extractColumnNamesFromParam JSON-decodes a
column-container parameter as an array of objects with a name field and falls
back to no columns when that fails (encoding/json is outside the embedded
sources).  No embedded claim exercises container parameters, so the
conservative fallback is used uniformly. -/
def extractColumnNamesFromParam (_param : String) : Except String (List String) :=
  Except.ok []

/-- extractColumnNamesFromTransformer: gather the values of the is-column
parameters and the decoded contents of the column-container parameters of a
binding, failing when the transformer is unknown to the registry. -/
def extractColumnNamesFromTransformer (transformer : TransformerConfig)
    (registry : List TransformerDefinition) : Except String (List String) :=
  match registryGet registry transformer.name with
  | none => Except.error ("transformer " ++ transformer.name ++ " not found in registry")
  | some transformerDef =>
    transformerDef.parameters.foldlM (fun acc paramDef =>
      if paramDef.isColumn then
        match List.lookup paramDef.name transformer.params with
        | some paramValue => pure (acc ++ [paramValue])
        | none => pure acc
      else if paramDef.isColumnContainer then
        match List.lookup paramDef.name transformer.params with
        | some paramValue =>
          match extractColumnNamesFromParam paramValue with
          | Except.error e =>
            Except.error ("failed to extract columns from container parameter " ++
              paramDef.name ++ ": " ++ e)
          | Except.ok containerColumns => pure (acc ++ containerColumns)
        | none => pure acc
      else pure acc) []

/-- generateDefaultTransformersForUndefinedColumns: a default transformer for
every column that is not already covered by a configured transformer, not in
the skip list, not generated, and not part of the primary key; a column type
with no default is an error. -/
def generateDefaultTransformersForUndefinedColumns (t : Table) (tableConfig : DomainsTable)
    (registry : List TransformerDefinition) : Except String (List TransformerConfig) := do
  let definedColumns ← tableConfig.transformers.foldlM (fun acc transformer =>
    match extractColumnNamesFromTransformer transformer registry with
    | Except.error e =>
      Except.error ("failed to extract column names from transformer " ++
        transformer.name ++ ": " ++ e)
    | Except.ok columnNames => pure (acc ++ columnNames)) ([] : List String)
  let skipColumns := tableConfig.skipAutoAnonymize
  t.columns.foldlM (fun acc column =>
    if definedColumns.contains column.name then pure acc
    else if skipColumns.contains column.name then pure acc
    else if column.isGenerated then pure acc
    else if t.primaryKey.contains column.name then pure acc
    else
      match GetDefaultTransformerForColumn column with
      | Except.error e =>
        Except.error ("error getting default transformer for column " ++ column.name ++ ": " ++ e)
      | Except.ok defaultTransformer => pure (acc ++ [defaultTransformer])) ([] : List TransformerConfig)

/-- enrichWarningsWithTransformerName: tag every warning with the transformer
name metadata. -/
def enrichWarningsWithTransformerName (ws : List ValidationWarning) (n : String) :
    List ValidationWarning :=
  ws.map (fun w => { w with meta := w.meta ++ [("TransformerName", n)] })

/-- Modelled from the spec: initTransformer runs the registry initialization
callback of a binding, which returns warnings or an infrastructure error (the
function body is outside the embedded sources). -/
def initTransformer (tc : TransformerConfig) (r : List TransformerDefinition) :
    Except String (List ValidationWarning) :=
  match registryGet r tc.name with
  | none =>
    Except.ok [{ severity := ValidationSeverity.error, msg := "transformer not found",
                 meta := [("TransformerName", tc.name)] }]
  | some td =>
    if td.initFails then Except.error ("cannot init transformer " ++ tc.name)
    else Except.ok td.initWarnings

/-- initAndSetupTransformers: under auto-anonymize, append the generated
default transformers to the configured ones (an error there is returned as a
non-nil error), then initialize every transformer, accumulating its warnings
enriched with the transformer name. -/
def initAndSetupTransformers (t : Table) (tableConfig : DomainsTable)
    (autoAnonymize : Bool) (r : List TransformerDefinition) :
    Except String (List ValidationWarning) := do
  let tableTransformers ←
    if autoAnonymize then
      match generateDefaultTransformersForUndefinedColumns t tableConfig r with
      | Except.error e =>
        Except.error ("cannot generate default transformers for undefined columns: " ++ e)
      | Except.ok defaultTransformers => pure (tableConfig.transformers ++ defaultTransformers)
    else pure tableConfig.transformers
  if tableTransformers.isEmpty then pure []
  else
    tableTransformers.foldlM (fun warnings tc =>
      match initTransformer tc r with
      | Except.error e => Except.error e
      | Except.ok initWarnings =>
        pure (warnings ++ enrichWarningsWithTransformerName initWarnings tc.name)) []

/-! ## Fixtures -/

/-- A plain non-generated column. -/
def mkColumn (n t : String) : Column :=
  { name := n, typeName := t, canonicalTypeName := "", isGenerated := false }

/-- A table entry with empty partition back-references. -/
def mkTable (schema name : String) (oid : Nat) (relKind : Char) (cols : List Column)
    (pk : List String) : Table :=
  { schema := schema, name := name, oid := oid, relKind := relKind, columns := cols,
    primaryKey := pk, rootPtSchema := "", rootPtName := "", rootPtOid := 0 }

/-- A user table config carrying only transformers. -/
def mkDomainsTable (schema name : String) (trs : List TransformerConfig)
    (applyForInherited : Bool) : DomainsTable :=
  { schema := schema, name := name, query := "", applyForInherited := applyForInherited,
    transformers := trs, columnsTypeOverride := [], skipAutoAnonymize := [],
    subsetConds := [], whenCond := "" }

/-- Whether a propagation result contains a binding of the named transformer
on the named column of the named table. -/
def hasPropagatedBinding (o : Option (List TableConfigMapping × List ValidationWarning))
    (schemaName tableName trName col : String) : Bool :=
  match o with
  | none => false
  | some (res, _) => res.any (fun tcm =>
      tcm.entry.schema == schemaName && tcm.entry.name == tableName &&
      tcm.config.transformers.any (fun tr =>
        tr.name == trName && lookupParam tr.params columnParameterName == col))

/-- C1 fixture: table a of the two-table FK cycle. -/
def cycTableA : Table :=
  mkTable ("public") ("a") 1 'r' [mkColumn ("id") ("int8"), mkColumn ("b_id") ("int8")] [("id")]

/-- C1 fixture: table b of the two-table FK cycle. -/
def cycTableB : Table :=
  mkTable ("public") ("b") 2 'r' [mkColumn ("id") ("int8"), mkColumn ("a_id") ("int8")] [("id")]

/-- C1 fixture: the FK edge a(b_id) referencing b(id). -/
def cycEdgeAB : Edge :=
  { id := 0, from_ := { table := cycTableA, keys := [("b_id")] },
    to_ := { table := cycTableB, keys := [("id")] } }

/-- C1 fixture: the FK edge b(a_id) referencing a(id). -/
def cycEdgeBA : Edge :=
  { id := 1, from_ := { table := cycTableB, keys := [("a_id")] },
    to_ := { table := cycTableA, keys := [("id")] } }

/-- C1 fixture: the component of the two-table cycle, one grouped cycle. -/
def cycComponent : Component :=
  { cycles := [[cycEdgeAB, cycEdgeBA]], groupedCycles := [("c1", [0])] }

/-- C1 fixture: the recursive CTE body registered for a. -/
def cycBodyA : String :=
  "SELECT id FROM a_base UNION SELECT id FROM a_recursive"

/-- C1 fixture: the recursive CTE body registered for b. -/
def cycBodyB : String :=
  "SELECT id FROM b_base UNION SELECT id FROM b_recursive"

/-- C1 fixture: the cteQuery with both per-table __ids items registered. -/
def cycCteQuery : CteQuery :=
  ((newCteQuery cycComponent).addItem ("public__a__ids") cycBodyA).addItem
    ("public__b__ids") cycBodyB

/-- C10 witness fixture: a component whose grouped-cycles map has two
entries. -/
def cycComponentTwoGroups : Component :=
  { cycles := [[cycEdgeAB, cycEdgeBA]], groupedCycles := [("c1", [0]), ("c2", [1])] }

/-- C10 witness fixture: a cteQuery over the two-group component. -/
def cycCteQueryTwoGroups : CteQuery :=
  (newCteQuery cycComponentTwoGroups).addItem ("public__a__ids") cycBodyA

/-- C3 fixture: the referenced root table users. -/
def refUsersTable : Table :=
  mkTable ("public") ("users") 10 'r'
    [mkColumn ("id") ("int8"), mkColumn ("email") ("text")] [("id")]

/-- C3 fixture: the referencing table orders. -/
def refOrdersTable : Table :=
  mkTable ("public") ("orders") 11 'r'
    [mkColumn ("id") ("int8"), mkColumn ("user_id") ("int8")] [("id")]

/-- C3 fixture: the FK edge orders(user_id) referencing users(id). -/
def refEdgeOrdersUsers : Edge :=
  { id := 0, from_ := { table := refOrdersTable, keys := [("user_id")] },
    to_ := { table := refUsersTable, keys := [("id")] } }

/-- C3 fixture: the graph of users and orders. -/
def refGraph : Graph :=
  { tables := [refUsersTable, refOrdersTable], edges := [refEdgeOrdersUsers] }

/-- C3 counterexample fixture: an apply_for_references binding whose engine
parameter is not hash. -/
def refTrNoHash : TransformerConfig :=
  { name := "RandomInt", params := [("column", "id"), ("engine", "random")],
    whenCond := "", applyForReferences := true }

/-- C3 counterexample fixture: the users config with the non-hash binding. -/
def refCfgNoHash : DomainsTable :=
  mkDomainsTable ("public") ("users") [refTrNoHash] false

/-- C3 counterexample fixture: a registry entry allowing apply-for-referenced
and declaring RequireHashEngineParameter as false. -/
def refTdNoHash : TransformerDefinition :=
  { name := "RandomInt", allowApplyForReferenced := some true,
    requireHashEngineParameter := some false,
    parameters := [{ name := "column", isColumn := true, isColumnContainer := false }],
    initFails := false, initWarnings := [] }

/-- C3 counterexample fixture: the registry. -/
def refRegNoHash : List TransformerDefinition := [refTdNoHash]

/-- C3 amended fixture: a Hash binding with engine hash on the users primary
key. -/
def refTrHash : TransformerConfig :=
  { name := "Hash", params := [("column", "id"), ("engine", "hash")],
    whenCond := "", applyForReferences := true }

/-- C3 amended fixture: the users config with the hash binding. -/
def refCfgHash : DomainsTable :=
  mkDomainsTable ("public") ("users") [refTrHash] false

/-- C3 amended fixture: the registry entry of Hash, requiring the hash
engine. -/
def refTdHash : TransformerDefinition :=
  { name := "Hash", allowApplyForReferenced := some true,
    requireHashEngineParameter := some true,
    parameters := [{ name := "column", isColumn := true, isColumnContainer := false }],
    initFails := false, initWarnings := [] }

/-- C3 amended fixture: the registry. -/
def refRegHash : List TransformerDefinition := [refTdHash]

/-- C4 fixture (claim scenario): users. -/
def e2eUsers : Table :=
  mkTable ("public") ("users") 20 'r'
    [mkColumn ("id") ("int8"), mkColumn ("email") ("text")] [("id")]

/-- C4 fixture (claim scenario): orders, referencing users. -/
def e2eOrders : Table :=
  mkTable ("public") ("orders") 21 'r'
    [mkColumn ("id") ("int8"), mkColumn ("user_id") ("int8")] [("id")]

/-- C4 fixture (claim scenario): order_items, whose FK order_id is its whole
primary key. -/
def e2eOrderItems : Table :=
  mkTable ("public") ("order_items") 22 'r'
    [mkColumn ("order_id") ("int8"), mkColumn ("item") ("text")] [("order_id")]

/-- C4 fixture (claim scenario): comments, with a separate serial primary
key. -/
def e2eComments : Table :=
  mkTable ("public") ("comments") 23 'r'
    [mkColumn ("id") ("int8"), mkColumn ("user_id") ("int8"), mkColumn ("body") ("text")]
    [("id")]

/-- C4 fixture: orders(user_id) referencing users(id). -/
def e2eEdgeOrdersUsers : Edge :=
  { id := 0, from_ := { table := e2eOrders, keys := [("user_id")] },
    to_ := { table := e2eUsers, keys := [("id")] } }

/-- C4 fixture: comments(user_id) referencing users(id). -/
def e2eEdgeCommentsUsers : Edge :=
  { id := 1, from_ := { table := e2eComments, keys := [("user_id")] },
    to_ := { table := e2eUsers, keys := [("id")] } }

/-- C4 fixture: order_items(order_id) referencing orders(id). -/
def e2eEdgeItemsOrders : Edge :=
  { id := 2, from_ := { table := e2eOrderItems, keys := [("order_id")] },
    to_ := { table := e2eOrders, keys := [("id")] } }

/-- C4 fixture: the graph of the claim scenario. -/
def e2eGraph : Graph :=
  { tables := [e2eUsers, e2eOrders, e2eOrderItems, e2eComments],
    edges := [e2eEdgeOrdersUsers, e2eEdgeCommentsUsers, e2eEdgeItemsOrders] }

/-- C4 fixture: the users config with the Hash binding of the claim
scenario. -/
def e2eCfgUsers : DomainsTable :=
  mkDomainsTable ("public") ("users") [refTrHash] false

/-- C4 counterexample fixture: root table r. -/
def mixRoot : Table :=
  mkTable ("public") ("r") 30 'r' [mkColumn ("id") ("int8")] [("id")]

/-- C4 counterexample fixture: table a referencing r. -/
def mixA : Table :=
  mkTable ("public") ("a_mid") 31 'r'
    [mkColumn ("id") ("int8"), mkColumn ("r_id") ("int8")] [("id")]

/-- C4 counterexample fixture: table b referencing a on a column that is not
part of its own primary key. -/
def mixB : Table :=
  mkTable ("public") ("b_leaf") 32 'r'
    [mkColumn ("id") ("int8"), mkColumn ("a_id") ("int8")] [("id")]

/-- C4 counterexample fixture: table c referencing a on its own primary-key
column. -/
def mixC : Table :=
  mkTable ("public") ("c_leaf") 33 'r' [mkColumn ("a_id") ("int8")] [("a_id")]

/-- C4 counterexample fixture: a(r_id) referencing r(id). -/
def mixEdgeAR : Edge :=
  { id := 0, from_ := { table := mixA, keys := [("r_id")] },
    to_ := { table := mixRoot, keys := [("id")] } }

/-- C4 counterexample fixture: b(a_id) referencing a(id). -/
def mixEdgeBA : Edge :=
  { id := 1, from_ := { table := mixB, keys := [("a_id")] },
    to_ := { table := mixA, keys := [("id")] } }

/-- C4 counterexample fixture: c(a_id) referencing a(id). -/
def mixEdgeCA : Edge :=
  { id := 2, from_ := { table := mixC, keys := [("a_id")] },
    to_ := { table := mixA, keys := [("id")] } }

/-- C4 counterexample fixture: the graph with the mixed siblings b and c. -/
def mixGraph : Graph :=
  { tables := [mixRoot, mixA, mixB, mixC], edges := [mixEdgeAR, mixEdgeBA, mixEdgeCA] }

/-- C4 counterexample fixture: the r config with the Hash binding. -/
def mixCfgRoot : DomainsTable :=
  mkDomainsTable ("public") ("r") [refTrHash] false

/-- C5 fixture: the configured table. -/
def rejUsers : Table :=
  mkTable ("public") ("users") 40 'r'
    [mkColumn ("id") ("int8"), mkColumn ("login") ("text")] [("id")]

/-- C5 fixture: a RandomString binding marked apply_for_references. -/
def rejTr : TransformerConfig :=
  { name := "RandomString", params := [("column", "login")],
    whenCond := "", applyForReferences := true }

/-- C5 fixture: the users config carrying the rejected binding. -/
def rejCfg : DomainsTable :=
  mkDomainsTable ("public") ("users") [rejTr] false

/-- C5 fixture: the registry entry reporting AllowApplyForReferenced as
false. -/
def rejTd : TransformerDefinition :=
  { name := "RandomString", allowApplyForReferenced := some false,
    requireHashEngineParameter := none,
    parameters := [{ name := "column", isColumn := true, isColumnContainer := false }],
    initFails := false, initWarnings := [] }

/-- C5 fixture: the registry. -/
def rejReg : List TransformerDefinition := [rejTd]

/-- C5 fixture: the graph of the single table. -/
def rejGraph : Graph := { tables := [rejUsers], edges := [] }

/-- The warning that the allowance check emits when the registry forbids
apply-for-referenced for a transformer. -/
def applyForReferencesNotAllowedWarning (n : String) : ValidationWarning :=
  { severity := ValidationSeverity.error,
    msg := "cannot apply transformer for references: transformer does not support apply for references",
    meta := [("TransformerName", n)] }

/-- C6 fixture: a table with a column of a type that has no default
transformer. -/
def anonGeoTable : Table :=
  mkTable ("public") ("places") 50 'r'
    [mkColumn ("id") ("int8"), mkColumn ("location") ("geography")] [("id")]

/-- C6 fixture: a table whose non-key column type is supported. -/
def anonTextTable : Table :=
  mkTable ("public") ("people") 51 'r'
    [mkColumn ("id") ("int8"), mkColumn ("email") ("text")] [("id")]

/-- C6 fixture: the empty per-table config of the auto-anonymize scenario. -/
def anonEmptyCfg : DomainsTable :=
  mkDomainsTable ("public") ("places") [] false

/-- C6 fixture: a registry knowing the RandomString default transformer. -/
def anonReg : List TransformerDefinition :=
  [{ name := "RandomString", allowApplyForReferenced := none,
     requireHashEngineParameter := none,
     parameters := [{ name := "column", isColumn := true, isColumnContainer := false }],
     initFails := false, initWarnings := [] }]

/-- C7 fixture: the partitioned parent events. -/
def ptParent : Table :=
  mkTable ("public") ("events") 60 'p'
    [mkColumn ("id") ("int8"), mkColumn ("ts") ("timestamp")] [("id")]

/-- C7 fixture: the leaf partition events_2024. -/
def ptChild2024 : Table :=
  mkTable ("public") ("events_2024") 61 'r'
    [mkColumn ("id") ("int8"), mkColumn ("ts") ("timestamp")] [("id")]

/-- C7 fixture: the leaf partition events_2025. -/
def ptChild2025 : Table :=
  mkTable ("public") ("events_2025") 62 'r'
    [mkColumn ("id") ("int8"), mkColumn ("ts") ("timestamp")] [("id")]

/-- C7 fixture: the RandomDate binding on ts. -/
def ptTr : TransformerConfig :=
  { name := "RandomDate", params := [("column", "ts")],
    whenCond := "", applyForReferences := false }

/-- C7 fixture: the events config with apply_for_inherited. -/
def ptCfg : DomainsTable :=
  mkDomainsTable ("public") ("events") [ptTr] true

/-- C7 fixture: the in-scope tables. -/
def ptTables : List Table := [ptParent, ptChild2024, ptChild2025]

/-- C7 fixture: the graph over the events tables. -/
def ptGraph : Graph := { tables := ptTables, edges := [] }

/-- C7 fixture: the partition catalog mapping the parent OID to its two leaf
partitions. -/
def ptCatalog : List (Nat × List Nat) := [(60, [61, 62])]

/-- C9 witness fixture: a 64-byte name (64 times the byte of letter a). -/
def longName64 : List Nat := List.replicate 64 97

/-- C9 witness fixture: a short two-byte name. -/
def shortName : List Nat := [104, 105]

/-- C8 witness fixture: two CTEs where the body of the first references the
second. -/
def cteDefsPair : List (String × String) :=
  [("alpha", "SELECT x FROM \"beta\""), ("beta", "SELECT y FROM t")]

/-- C6 fixture: the empty config of the supported-type table. -/
def anonPeopleCfg : DomainsTable :=
  mkDomainsTable ("public") ("people") [] false

/-! ## Helper lemmas -/

/-- Hex encoding yields two bytes per input byte. -/
theorem hexEncode_length (l : List Nat) : (hexEncode l).length = 2 * l.length := by
  induction l with
  | nil => rfl
  | cons b rest ih =>
    simp [hexEncode, hexByte] at ih ⊢
    omega

/-- The SHA-1 digest always has 20 bytes. -/
theorem sha1DigestOfState_length (st : Nat × Nat × Nat × Nat × Nat) :
    (sha1DigestOfState st).length = 20 := by
  obtain ⟨a, b, c, d, e⟩ := st
  rfl

/-- The SHA-1 digest of any message has 20 bytes. -/
theorem sha1_length (msg : List Nat) : (sha1 msg).length = 20 := by
  unfold sha1
  exact sha1DigestOfState_length _

/-! ## Claims -/

/-- Claim C1, counterexample.  In the two-table FK cycle a(b_id) referencing
b(id) and b(a_id) referencing a(id) with target table a, with both
public__a__ids and public__b__ids registered through addItem, the query that
generateQuery produces contains neither the name public__b__ids nor the body
registered for it: the __ids CTE of the non-target cycle table is filtered
out, so the claim that both CTE bodies occur exactly once is false. -/
theorem c1_two_table_cycle_missing_b_cte :
    CteQuery.generateQuery cycCteQuery cycTableA =
      some ("WITH RECURSIVE  public__a__ids AS (SELECT id FROM a_base UNION SELECT id FROM a_recursive) SELECT \"public\".\"a\".\"id\", \"public\".\"a\".\"b_id\" FROM \"public\".\"a\" WHERE (\"public\".\"a\".\"id\") IN (SELECT \"public__a__ids\".\"id\" FROM \"public__a__ids\")") ∧
    containsSubstr ("WITH RECURSIVE  public__a__ids AS (SELECT id FROM a_base UNION SELECT id FROM a_recursive) SELECT \"public\".\"a\".\"id\", \"public\".\"a\".\"b_id\" FROM \"public\".\"a\" WHERE (\"public\".\"a\".\"id\") IN (SELECT \"public__a__ids\".\"id\" FROM \"public__a__ids\")")
      ("public__b__ids") = false := by
  constructor
  · rfl
  · decide

/-- Claim C1, amended.  For the two-table FK cycle with target a, the
generated query is a single WITH RECURSIVE whose CTE list contains the body
of public__a__ids exactly once, while the public__b__ids item is excluded
(generateQuery filters out the __ids CTEs of the non-target tables of the
cycle), followed by the final projection selecting from public.a where the
primary key is IN the public__a__ids CTE; addItem keeps each CTE name at most
once in the item list. -/
theorem c1_two_table_cycle_query_shape :
    CteQuery.generateQuery cycCteQuery cycTableA =
      some ("WITH RECURSIVE  public__a__ids AS (" ++ cycBodyA ++
        ") SELECT \"public\".\"a\".\"id\", \"public\".\"a\".\"b_id\" FROM \"public\".\"a\" WHERE (\"public\".\"a\".\"id\") IN (SELECT \"public__a__ids\".\"id\" FROM \"public__a__ids\")") ∧
    cycCteQuery.items.length = 2 ∧
    ((cycCteQuery.addItem ("public__a__ids") cycBodyA).items).length = 2 := by
  refine ⟨rfl, rfl, ?_⟩
  decide

/-- Claim C2, counterexample.  For the single-table fixture with
subset_conds = [active = true], generateWhereClause does not append the
trailing AND TRUE the claim demands. -/
theorem c2_where_clause_no_and_true :
    ¬ (generateWhereClause [("active = true")] = "WHERE ( active = true ) AND TRUE") := by
  decide

/-- Claim C2, amended.  For every table whose subset-condition list is
non-empty, the generated WHERE clause consists of each condition
parenthesized and AND-joined, with no trailing AND TRUE: for the single-table
fixture the clause is exactly WHERE ( active = true ); when the list is empty
the clause is WHERE TRUE. -/
theorem c2_where_clause_shape :
    (∀ conds : List String, generateWhereClause conds =
      if conds.isEmpty then "WHERE TRUE"
      else "WHERE " ++ String.intercalate (" AND ") (conds.map (fun c => "( " ++ c ++ " )"))) ∧
    generateWhereClause [("active = true")] = "WHERE ( active = true )" ∧
    generateWhereClause [] = "WHERE TRUE" := by
  refine ⟨fun conds => rfl, ?_, rfl⟩
  decide

/-- Claim C9, confirmed.  shorten is deterministic, returns names of at most
63 bytes unchanged, and shortens longer names to the 40-byte prefix, an
underscore, and the 10 lowercase hex characters of the first five digest
bytes, for a total length of 51, within the 63-byte identifier limit. -/
theorem c9_shorten_spec (name : List Nat) :
    shorten name = shorten name ∧
    (name.length ≤ 63 → shorten name = name) ∧
    (63 < name.length →
      shorten name = name.take 40 ++ [95] ++ hexEncode ((sha1 name).take 5) ∧
      (hexEncode ((sha1 name).take 5)).length = 10 ∧
      (shorten name).length = 51 ∧ (shorten name).length ≤ 63) := by
  refine ⟨rfl, ?_, ?_⟩
  · intro h
    simp [shorten, h]
  · intro h
    have hne : ¬ (name.length ≤ 63) := by omega
    have hform : shorten name = name.take 40 ++ [95] ++ hexEncode ((sha1 name).take 5) := by
      simp [shorten, hne]
    have hhex : (hexEncode ((sha1 name).take 5)).length = 10 := by
      rw [hexEncode_length, List.length_take, sha1_length]
      decide
    have htake : (name.take 40).length = 40 := by
      rw [List.length_take]
      omega
    have hlen : (shorten name).length = 51 := by
      rw [hform]
      simp [htake, hhex]
    exact ⟨hform, hhex, hlen, by omega⟩

/-- Claim C9, witness: the theorem applied to a two-byte name and to a
64-byte name. -/
theorem c9_shorten_spec_witness :
    (shortName.length ≤ 63 ∧ shorten shortName = shortName) ∧
    (63 < longName64.length ∧
      (shorten longName64 = longName64.take 40 ++ [95] ++ hexEncode ((sha1 longName64).take 5) ∧
       (hexEncode ((sha1 longName64).take 5)).length = 10 ∧
       (shorten longName64).length = 51 ∧ (shorten longName64).length ≤ 63)) :=
  ⟨⟨by decide, (c9_shorten_spec shortName).2.1 (by decide)⟩,
   ⟨by decide, (c9_shorten_spec longName64).2.2 (by decide)⟩⟩

/-- Claim C10, confirmed.  generateQuery yields a query string only when the
grouped-cycles list of the component has at most one entry; with more than
one grouped cycle it panics (modelled as none). -/
theorem c10_generate_query_grouped_cycles_guard (cq : CteQuery) (t : Table) :
    (cq.c.groupedCycles.length > 1 → CteQuery.generateQuery cq t = none) ∧
    ((CteQuery.generateQuery cq t).isSome = true → cq.c.groupedCycles.length ≤ 1) := by
  constructor
  · intro h
    simp [CteQuery.generateQuery, h]
  · intro h
    by_contra hgt
    have h1 : cq.c.groupedCycles.length > 1 := by omega
    simp [CteQuery.generateQuery, h1] at h

/-- Claim C10, witness: a component with two grouped cycles is refused. -/
theorem c10_generate_query_grouped_cycles_guard_witness :
    cycCteQueryTwoGroups.c.groupedCycles.length > 1 ∧
    CteQuery.generateQuery cycCteQueryTwoGroups cycTableA = none :=
  ⟨by decide,
   (c10_generate_query_grouped_cycles_guard cycCteQueryTwoGroups cycTableA).1 (by decide)⟩

/-- Claim C6, counterexample.  With auto-anonymize on, a non-key column of
type geography (no default transformer) does not produce a fatal warning
list with a nil error: the phase result is an error, not an ok value. -/
theorem c6_unsupported_type_not_a_warning :
    (initAndSetupTransformers anonGeoTable anonEmptyCfg true anonReg).isOk = false := by
  decide

/-- Claim C6, amended.  When auto_anonymize is enabled and a non-PK,
non-generated, non-configured, non-skip-listed column has a type with no
default transformer, GetDefaultTransformerForColumn returns an error which
generateDefaultTransformersForUndefinedColumns and initAndSetupTransformers
wrap and propagate as a non-nil error return of the config-building phase;
no validation warning is emitted.  A table whose column types are supported
passes with no warnings. -/
theorem c6_unsupported_type_error_propagation :
    initAndSetupTransformers anonGeoTable anonEmptyCfg true anonReg =
      Except.error ("cannot generate default transformers for undefined columns: error getting default transformer for column location: unable to get default transformer for column location and type geography") ∧
    initAndSetupTransformers anonTextTable anonPeopleCfg true anonReg = Except.ok [] := by
  constructor
  · rfl
  · rfl

/-- Claim C3, counterexample.  A binding with apply_for_references whose
transformer declares AllowApplyForReferenced and declares
RequireHashEngineParameter as false, with an engine parameter that is not
hash, passes the registry checks, yet the reference walk emits no clone for
the incoming orders edge: collectRootTransformers additionally requires the
engine parameter to be literally hash. -/
theorem c3_registry_pass_without_hash_engine_no_clone :
    checkApplyForReferenceMetRequirements { entry := refUsersTable, config := refCfgNoHash }
      refRegNoHash = (true, []) ∧
    getRefTables refUsersTable refCfgNoHash refGraph [refCfgNoHash] 50 = some ([], []) := by
  constructor
  · rfl
  · rfl

/-- Claim C3, amended.  For a binding with apply_for_references that passes
the registry checks and, in addition, has its engine parameter literally
hash and its column parameter on a primary-key column of the root table, the
builder walks the reversed graph and, for each incoming edge, emits a clone
of the transformer with the column parameter rewritten to the child-side
column at the same ordinal. -/
theorem c3_hash_engine_binding_propagates_clone :
    checkApplyForReferenceMetRequirements { entry := refUsersTable, config := refCfgHash }
      refRegHash = (true, []) ∧
    getRefTables refUsersTable refCfgHash refGraph [refCfgHash] 50 =
      some ([{ entry := refOrdersTable,
               config := { schema := "public", name := "orders", query := "",
                           applyForInherited := false,
                           transformers := [{ name := "Hash",
                                              params := [("column", "user_id"), ("engine", "hash")],
                                              whenCond := "", applyForReferences := true }],
                           columnsTypeOverride := [], skipAutoAnonymize := [],
                           subsetConds := [], whenCond := "" } }], []) := by
  constructor
  · rfl
  · rfl

/-- Claim C4, counterexample.  Beyond the first level the end-to-end check is
evaluated on the referenced table of the edge, not on the edge itself: in a
graph where the middle table is referenced by one end-to-end child (c_leaf,
FK equal to its primary key) and one non-end-to-end sibling (b_leaf, FK not
in its primary key), the sibling b_leaf also receives a propagated binding on
a_id although a_id is not part of its primary key, refuting the claim that
the DFS recurses only through edges whose child FK column is part of the
child primary key. -/
theorem c4_non_end_to_end_sibling_receives_propagation :
    hasPropagatedBinding (getRefTables mixRoot mixCfgRoot mixGraph [mixCfgRoot] 50)
      ("public") ("b_leaf") ("Hash") ("a_id") = true ∧
    mixB.primaryKey.contains ("a_id") = false := by
  constructor
  · rfl
  · decide

/-- Claim C4, amended.  Beyond the first level, the DFS recurses through the
incoming edges of the current table iff some table referencing the current
table has an FK column that is also part of the own
primary key of that referencing table (isEndToEndPKFK is evaluated on the from_ table of the edge, not per
edge).  In the fixture of the claim this propagates Hash to orders.user_id at the
first level, to order_items.order_id at the second level, and stops after
comments.user_id; but a non-end-to-end sibling of an end-to-end child is
traversed as well. -/
theorem c4_end_to_end_fixture_propagation :
    ((getRefTables e2eUsers e2eCfgUsers e2eGraph [e2eCfgUsers] 50).map
      (fun p => p.fst.map (fun tcm => (tcm.entry.name,
        tcm.config.transformers.map (fun tr => lookupParam tr.params columnParameterName))))) =
      some [("orders", ["user_id"]), ("order_items", ["order_id"]), ("comments", ["user_id"])] ∧
    hasPropagatedBinding (getRefTables mixRoot mixCfgRoot mixGraph [mixCfgRoot] 50)
      ("public") ("c_leaf") ("Hash") ("a_id") = true := by
  constructor
  · rfl
  · rfl

/-- Claim C5, amended, general form.  When the config of a table has a single
transformer marked apply_for_references whose registry definition reports
AllowApplyForReferenced as false, setConfigToEntries emits exactly one
error-severity warning, emits zero propagated bindings, and drops the
original binding of the table: the resulting binding list is empty. -/
theorem c5_rejected_binding_general (cfg : List DomainsTable) (tables : List Table)
    (g : Graph) (r : List TransformerDefinition) (catalog : List (Nat × List Nat)) (fuel : Nat)
    (e : Table) (tc : DomainsTable) (tr : TransformerConfig) (td : TransformerDefinition)
    (hfind : findTablesWithTransformers cfg tables = [{ entry := e, config := tc }])
    (htr : tc.transformers = [tr])
    (hafr : tr.applyForReferences = true)
    (hreg : registryGet r tr.name = some td)
    (hallow : td.allowApplyForReferenced = some false) :
    setConfigToEntries cfg tables g r catalog fuel =
      some ([], [applyForReferencesNotAllowedWarning tr.name]) := by
  unfold setConfigToEntries
  rw [hfind]
  unfold setConfigToEntriesLoop
  simp [hasTransformerWithApplyForReferences, htr, hafr,
        checkApplyForReferenceMetRequirements, isTransformerAllowedToApplyForReferences,
        hreg, hallow, isFatal, ValidationSeverity.isError, applyForReferencesNotAllowedWarning,
        setConfigToEntriesLoop]

/-- Claim C5, witness: the general theorem applied to the RandomString
fixture. -/
theorem c5_rejected_binding_general_witness :
    findTablesWithTransformers [rejCfg] [rejUsers] = [{ entry := rejUsers, config := rejCfg }] ∧
    rejCfg.transformers = [rejTr] ∧
    rejTr.applyForReferences = true ∧
    registryGet rejReg rejTr.name = some rejTd ∧
    rejTd.allowApplyForReferenced = some false ∧
    setConfigToEntries [rejCfg] [rejUsers] rejGraph rejReg [] 7 =
      some ([], [applyForReferencesNotAllowedWarning rejTr.name]) :=
  ⟨by decide, by decide, by decide, by decide, by decide,
   c5_rejected_binding_general [rejCfg] [rejUsers] rejGraph rejReg [] 7 rejUsers rejCfg rejTr rejTd
     (by decide) (by decide) (by decide) (by decide) (by decide)⟩

/-- Claim C5, counterexample.  When the registry reports
AllowApplyForReferenced as false for a binding marked apply_for_references,
setConfigToEntries emits exactly one error-severity warning and no propagated
bindings, but the own binding of the configured table is dropped rather than
preserved: the resulting binding list is empty. -/
theorem c5_rejected_binding_dropped_fixture :
    setConfigToEntries [rejCfg] [rejUsers] rejGraph rejReg [] 5 =
      some ([], [applyForReferencesNotAllowedWarning ("RandomString")]) := by
  rfl

/-- Every mapping accumulated by the partition expansion loop carries the
parent config, and its entry keeps the relation kind of the matched in-scope
table, which is not a partitioned parent under the leaf hypothesis. -/
theorem setup_children_foldl_facts (parentTcm : TableConfigMapping) (tables : List Table) :
    ∀ (parts : List Nat) (acc : List TableConfigMapping),
      (∀ pt ∈ parts, ∀ t ∈ tables, t.oid = pt → ¬ t.relKind = 'p') →
      (∀ tcm ∈ acc, tcm.config = parentTcm.config ∧ ¬ tcm.entry.relKind = 'p') →
      ∀ tcm ∈ parts.foldl (setupChildStep parentTcm tables) acc,
        tcm.config = parentTcm.config ∧ ¬ tcm.entry.relKind = 'p' := by
  intro parts
  induction parts with
  | nil =>
    intro acc _ hacc tcm hm
    exact hacc tcm hm
  | cons pt rest ih =>
    intro acc hparts hacc tcm hm
    simp only [List.foldl_cons] at hm
    refine ih (setupChildStep parentTcm tables acc pt) ?_ ?_ tcm hm
    · intro q hq t ht hoid
      exact hparts q (List.mem_cons_of_mem _ hq) t ht hoid
    · intro tcm2 hm2
      unfold setupChildStep at hm2
      cases hfind : tables.find? (fun table => table.oid == pt) with
      | none =>
        rw [hfind] at hm2
        exact hacc tcm2 hm2
      | some e =>
        rw [hfind] at hm2
        simp only [List.mem_append, List.mem_singleton] at hm2
        cases hm2 with
        | inl h => exact hacc tcm2 h
        | inr h =>
          subst h
          refine ⟨rfl, ?_⟩
          have hmem := List.mem_of_find?_eq_some hfind
          have hpred := List.find?_some hfind
          have hoid : e.oid = pt := by simpa using hpred
          exact hparts pt (List.mem_cons_self _ _) e hmem hoid

/-- The OIDs of the mappings produced by the partition expansion loop are
exactly the partition OIDs that are found among the in-scope tables, in
order. -/
theorem setup_children_foldl_oids (parentTcm : TableConfigMapping) (tables : List Table) :
    ∀ (parts : List Nat) (acc : List TableConfigMapping),
      (parts.foldl (setupChildStep parentTcm tables) acc).map (fun tcm => tcm.entry.oid) =
        acc.map (fun tcm => tcm.entry.oid) ++
          parts.filter (fun pt => tables.any (fun t => t.oid == pt)) := by
  intro parts
  induction parts with
  | nil => intro acc; simp
  | cons pt rest ih =>
    intro acc
    simp only [List.foldl_cons, List.filter_cons]
    cases hfind : tables.find? (fun table => table.oid == pt) with
    | none =>
      have hany : tables.any (fun t => t.oid == pt) = false := by
        rw [List.any_eq_false]
        intro t ht hbeq
        have : tables.find? (fun table => table.oid == pt) ≠ none := by
          intro hnone
          rw [List.find?_eq_none] at hnone
          exact absurd hbeq (by simpa using hnone t ht)
        exact this hfind
      rw [ih]
      simp [setupChildStep, hfind, hany]
    | some e =>
      have hpred2 := @List.find?_some Table (fun table => table.oid == pt) e tables hfind
      have hany : tables.any (fun t => t.oid == pt) = true := by
        rw [List.any_eq_true]
        exact ⟨e, List.mem_of_find?_eq_some hfind, hpred2⟩
      have hoid : e.oid = pt := by simpa using hpred2
      rw [ih]
      simp [setupChildStep, hfind, hany, hoid]

/-- Claim C7, confirmed.  When the matched config is a single partitioned
parent with apply_for_inherited and no apply_for_references transformer, and
every in-scope partition of the parent is a leaf, setConfigToEntries returns
exactly the expanded child bindings with no warning: one binding per in-scope
partition in catalog order, each carrying the transformer config of the parent,
and none of the resulting bindings (in particular not the parent itself) has
partition kind p. -/
theorem c7_partition_expansion (cfg : List DomainsTable) (tables : List Table) (g : Graph)
    (r : List TransformerDefinition) (catalog : List (Nat × List Nat)) (fuel : Nat)
    (parent : Table) (tc : DomainsTable)
    (hfind : findTablesWithTransformers cfg tables = [{ entry := parent, config := tc }])
    (hrefs : hasTransformerWithApplyForReferences { entry := parent, config := tc } = false)
    (hkind : parent.relKind = 'p')
    (hinh : tc.applyForInherited = true)
    (hleaf : ∀ pt ∈ findPartitionsOfPartitionedTable catalog parent,
      ∀ t ∈ tables, t.oid = pt → ¬ t.relKind = 'p') :
    setConfigToEntries cfg tables g r catalog fuel =
      some (setupConfigForPartitionedTableChildren { entry := parent, config := tc }
        tables catalog, []) ∧
    (∀ tcm ∈ setupConfigForPartitionedTableChildren { entry := parent, config := tc }
        tables catalog, tcm.config = tc ∧ ¬ tcm.entry.relKind = 'p') ∧
    (setupConfigForPartitionedTableChildren { entry := parent, config := tc }
        tables catalog).map (fun tcm => tcm.entry.oid) =
      (findPartitionsOfPartitionedTable catalog parent).filter
        (fun pt => tables.any (fun t => t.oid == pt)) := by
  refine ⟨?_, ?_, ?_⟩
  · unfold setConfigToEntries
    rw [hfind]
    unfold setConfigToEntriesLoop
    simp [hrefs, hkind, hinh, setConfigToEntriesLoop]
  · intro tcm hm
    exact setup_children_foldl_facts { entry := parent, config := tc } tables
      (findPartitionsOfPartitionedTable catalog parent) [] hleaf (by intro t ht; cases ht)
      tcm hm
  · unfold setupConfigForPartitionedTableChildren
    rw [setup_children_foldl_oids]
    simp

/-- Claim C7, witness: the general theorem applied to the events fixture with
its two leaf partitions. -/
theorem c7_partition_expansion_witness :
    findTablesWithTransformers [ptCfg] ptTables = [{ entry := ptParent, config := ptCfg }] ∧
    hasTransformerWithApplyForReferences { entry := ptParent, config := ptCfg } = false ∧
    ptParent.relKind = 'p' ∧
    ptCfg.applyForInherited = true ∧
    (setConfigToEntries [ptCfg] ptTables ptGraph [] ptCatalog 5 =
      some (setupConfigForPartitionedTableChildren { entry := ptParent, config := ptCfg }
        ptTables ptCatalog, []) ∧
     (∀ tcm ∈ setupConfigForPartitionedTableChildren { entry := ptParent, config := ptCfg }
        ptTables ptCatalog, tcm.config = ptCfg ∧ ¬ tcm.entry.relKind = 'p') ∧
     (setupConfigForPartitionedTableChildren { entry := ptParent, config := ptCfg }
        ptTables ptCatalog).map (fun tcm => tcm.entry.oid) =
      (findPartitionsOfPartitionedTable ptCatalog ptParent).filter
        (fun pt => ptTables.any (fun t => t.oid == pt))) :=
  ⟨by decide, by decide, by decide, by decide,
   c7_partition_expansion [ptCfg] ptTables ptGraph [] ptCatalog 5 ptParent ptCfg
     (by decide) (by decide) (by decide) (by decide) (by decide)⟩

/-- A node of the zero list depends on no remaining node. -/
theorem kahnZeros_no_dep (dep : String → String → Bool) (remaining : List String)
    (n : String) (h : n ∈ kahnZeros dep remaining) :
    ∀ m ∈ remaining, dep n m = false := by
  have h2 := (List.mem_filter.mp h).2
  intro m hm
  have h3 := (List.all_eq_true.mp h2) m hm
  simpa using h3

/-- Unfolding of the Kahn loop when the zero list is empty. -/
theorem kahnAux_eq_nil (dep : String → String → Bool) (remaining : List String)
    (h : kahnZeros dep remaining = []) : kahnAux dep remaining = [] := by
  rw [kahnAux]
  split
  · rfl
  · rename_i n rest heq
    rw [h] at heq
    cases heq

/-- Unfolding of the Kahn loop when the zero list starts with n. -/
theorem kahnAux_eq_cons (dep : String → String → Bool) (remaining : List String)
    (n : String) (rest : List String) (h : kahnZeros dep remaining = n :: rest) :
    kahnAux dep remaining = n :: kahnAux dep (remaining.erase n) := by
  rw [kahnAux]
  split
  · rename_i heq
    rw [h] at heq
    cases heq
  · rename_i n2 rest2 heq
    rw [h] at heq
    injection heq with h1 h2
    subst h1
    rfl

/-- Every element the Kahn loop emits belongs to its remaining list. -/
theorem kahnAux_subset (dep : String → String → Bool) :
    ∀ (k : Nat) (remaining : List String), remaining.length ≤ k →
      ∀ x ∈ kahnAux dep remaining, x ∈ remaining := by
  intro k
  induction k with
  | zero =>
    intro remaining h x hx
    have hnil : remaining = [] := List.eq_nil_of_length_eq_zero (by omega)
    subst hnil
    rw [kahnAux_eq_nil dep [] rfl] at hx
    cases hx
  | succ k ih =>
    intro remaining h x hx
    cases hz : kahnZeros dep remaining with
    | nil =>
      rw [kahnAux_eq_nil dep remaining hz] at hx
      cases hx
    | cons n rest =>
      have hnz : n ∈ kahnZeros dep remaining := by
        rw [hz]
        exact List.mem_cons_self n rest
      have hn : n ∈ remaining := (List.mem_filter.mp hnz).1
      rw [kahnAux_eq_cons dep remaining n rest hz] at hx
      cases hx with
      | head => exact hn
      | tail _ hx2 =>
        have hlen : (remaining.erase n).length ≤ k := by
          have h1 := List.length_erase_of_mem hn
          have h2 := List.length_pos_of_mem hn
          omega
        exact List.mem_of_mem_erase (ih (remaining.erase n) hlen x hx2)

/-- The Kahn loop emits no duplicates when its remaining list has none. -/
theorem kahnAux_nodup (dep : String → String → Bool) :
    ∀ (k : Nat) (remaining : List String), remaining.length ≤ k → remaining.Nodup →
      (kahnAux dep remaining).Nodup := by
  intro k
  induction k with
  | zero =>
    intro remaining h _
    have hnil : remaining = [] := List.eq_nil_of_length_eq_zero (by omega)
    subst hnil
    rw [kahnAux_eq_nil dep [] rfl]
    exact List.nodup_nil
  | succ k ih =>
    intro remaining h hnd
    cases hz : kahnZeros dep remaining with
    | nil =>
      rw [kahnAux_eq_nil dep remaining hz]
      exact List.nodup_nil
    | cons n rest =>
      have hnz : n ∈ kahnZeros dep remaining := by
        rw [hz]
        exact List.mem_cons_self n rest
      have hn : n ∈ remaining := (List.mem_filter.mp hnz).1
      rw [kahnAux_eq_cons dep remaining n rest hz]
      have hlen : (remaining.erase n).length ≤ k := by
        have h1 := List.length_erase_of_mem hn
        have h2 := List.length_pos_of_mem hn
        omega
      refine List.Nodup.cons ?_ (ih (remaining.erase n) hlen (hnd.erase n))
      intro hmem
      have h3 : n ∈ remaining.erase n :=
        kahnAux_subset dep k (remaining.erase n) hlen n hmem
      have h4 := (hnd.mem_erase_iff.mp h3).1
      exact h4 rfl

/-- Topological property of the Kahn loop: whenever a node a that depends on
a remaining node b is emitted, b was emitted earlier. -/
theorem kahnAux_before (dep : String → String → Bool) :
    ∀ (k : Nat) (remaining : List String), remaining.length ≤ k →
      ∀ a b, dep a b = true → b ∈ remaining →
      ∀ l1 l2, kahnAux dep remaining = l1 ++ a :: l2 → b ∈ l1 := by
  intro k
  induction k with
  | zero =>
    intro remaining h a b _ _ l1 l2 heq
    have hnil : remaining = [] := List.eq_nil_of_length_eq_zero (by omega)
    subst hnil
    rw [kahnAux_eq_nil dep [] rfl] at heq
    exact absurd heq.symm (List.append_ne_nil_of_right_ne_nil l1 (List.cons_ne_nil a l2))
  | succ k ih =>
    intro remaining h a b hdep hb l1 l2 heq
    cases hz : kahnZeros dep remaining with
    | nil =>
      rw [kahnAux_eq_nil dep remaining hz] at heq
      exact absurd heq.symm (List.append_ne_nil_of_right_ne_nil l1 (List.cons_ne_nil a l2))
    | cons n rest =>
      have hnz : n ∈ kahnZeros dep remaining := by
        rw [hz]; exact List.mem_cons_self n rest
      have hn : n ∈ remaining := (List.mem_filter.mp hnz).1
      rw [kahnAux_eq_cons dep remaining n rest hz] at heq
      cases l1 with
      | nil =>
        simp only [List.nil_append] at heq
        injection heq with h1 h2
        subst h1
        have := kahnZeros_no_dep dep remaining n hnz b hb
        rw [hdep] at this
        cases this
      | cons x l1tl =>
        simp only [List.cons_append] at heq
        injection heq with h1 h2
        subst h1
        by_cases hbn : b = n
        · subst hbn
          exact List.mem_cons_self b l1tl
        · have hb2 : b ∈ remaining.erase n := (List.mem_erase_of_ne hbn).mpr hb
          have hlen : (remaining.erase n).length ≤ k := by
            have h1 := List.length_erase_of_mem hn
            have h2 := List.length_pos_of_mem hn
            omega
          exact List.mem_cons_of_mem n (ih (remaining.erase n) hlen a b hdep hb2 l1tl l2 h2)

/-- When the Kahn loop covers every name, its output is a permutation of the
name list. -/
theorem kahnAux_perm (dep : String → String → Bool) (remaining : List String)
    (hnd : remaining.Nodup)
    (hlen : (kahnAux dep remaining).length = remaining.length) :
    (kahnAux dep remaining).Perm remaining := by
  have hsub : kahnAux dep remaining ⊆ remaining := by
    intro x hx
    exact kahnAux_subset dep remaining.length remaining (Nat.le_refl _) x hx
  have hnd2 : (kahnAux dep remaining).Nodup :=
    kahnAux_nodup dep remaining.length remaining (Nat.le_refl _) hnd
  exact (hnd2.subperm hsub).perm_of_length_le (by omega)

/-- Claim C8, confirmed.  For every CTE definition map with distinct names,
the order that buildWithClause lists the CTEs in is a permutation of the
sorted names, and either it places every CTE after all the CTEs it depends on
(CTE a depends on b iff the body of a literally contains b in double quotes),
or - when the Kahn loop cannot cover all names because the dependency
relation is cyclic - it is exactly the alphabetical name list; the generated
clause lists each CTE as a quoted name with its body in that order.  The
alphabetical tie-break is built into the loop, which always emits the least
remaining zero-in-degree name of the sorted queue. -/
theorem c8_with_clause_topological (cteDefs : List (String × String))
    (hnd : (cteDefs.map Prod.fst).Nodup) :
    (cteOrder cteDefs).Perm (cteNames cteDefs) ∧
    ((∀ a b, a ∈ cteNames cteDefs → b ∈ cteNames cteDefs → cteDep cteDefs a b = true →
        ∀ l1 l2, cteOrder cteDefs = l1 ++ a :: l2 → b ∈ l1) ∨
      cteOrder cteDefs = cteNames cteDefs) ∧
    (cteDefs.isEmpty = false →
      buildWithClause cteDefs = "WITH " ++ String.intercalate (", ")
        ((cteOrder cteDefs).map
          (fun name => "\"" ++ name ++ "\" AS (" ++ cteBodyOf cteDefs name ++ ")"))) := by
  have hndnames : (cteNames cteDefs).Nodup :=
    (List.mergeSort_perm (cteDefs.map Prod.fst) (fun a b => a ≤ b)).symm.nodup hnd
  by_cases hlen : (kahnAux (cteDep cteDefs) (cteNames cteDefs)).length =
      (cteNames cteDefs).length
  · have hord : cteOrder cteDefs = kahnAux (cteDep cteDefs) (cteNames cteDefs) := by
      unfold cteOrder
      simp [hlen]
    refine ⟨?_, Or.inl ?_, ?_⟩
    · rw [hord]
      exact kahnAux_perm (cteDep cteDefs) (cteNames cteDefs) hndnames hlen
    · intro a b _ hb hdep l1 l2 heq
      rw [hord] at heq
      exact kahnAux_before (cteDep cteDefs) (cteNames cteDefs).length (cteNames cteDefs)
        (Nat.le_refl _) a b hdep hb l1 l2 heq
    · intro hne
      unfold buildWithClause
      simp [hne]
  · have hord : cteOrder cteDefs = cteNames cteDefs := by
      unfold cteOrder
      simp [hlen]
    refine ⟨?_, Or.inr hord, ?_⟩
    · rw [hord]
    · intro hne
      unfold buildWithClause
      simp [hne]

/-- Claim C8, witness: the theorem applied to a two-CTE map where alpha
references beta. -/
theorem c8_with_clause_topological_witness :
    (cteDefsPair.map Prod.fst).Nodup ∧
    ((cteOrder cteDefsPair).Perm (cteNames cteDefsPair) ∧
     ((∀ a b, a ∈ cteNames cteDefsPair → b ∈ cteNames cteDefsPair →
         cteDep cteDefsPair a b = true →
         ∀ l1 l2, cteOrder cteDefsPair = l1 ++ a :: l2 → b ∈ l1) ∨
       cteOrder cteDefsPair = cteNames cteDefsPair) ∧
     (cteDefsPair.isEmpty = false →
       buildWithClause cteDefsPair = "WITH " ++ String.intercalate (", ")
        ((cteOrder cteDefsPair).map
          (fun name => "\"" ++ name ++ "\" AS (" ++ cteBodyOf cteDefsPair name ++ ")")))) :=
  ⟨by decide, c8_with_clause_topological cteDefsPair (by decide)⟩

end Greenmask
